import Mathlib

/-!
# System-call layer of `userprog/syscall.c`

A shallow embedding of the dispatcher `syscall_handler`, the address validator
`check_address`, `exit` and the file handlers of `userprog/syscall.c`.

* Machine integers are `Nat`/`Int` with explicit reduction modulo `2^32` / `2^64`.
* A handler is a state transformer over a `World`; its `Outcome` says whether control
  came back to the caller (`returned v`) or not (`stopped why`).
* Every call that leaves the file (filesystem, descriptor table, console, process
  subsystem) is taken from a `Kernel` record of collaborators and, when it has an
  effect, logged in `World.trace` in program order.
-/

namespace Syscall

/-! ## Machine integers -/

/-- Conversion of a register value to a C `int` (two's complement, 32 bit). -/
def toInt32 (x : Nat) : Int :=
  if x % 2 ^ 32 < 2 ^ 31 then ((x % 2 ^ 32 : Nat) : Int) else ((x % 2 ^ 32 : Nat) : Int) - 2 ^ 32

/-- Conversion of a C `int` to `unsigned` (32 bit). -/
def toUInt32 (x : Int) : Nat := (x % 2 ^ 32).toNat

/-- Conversion of a C `int` to `uint64_t`, as done by the store `f->R.rax = v`. -/
def toUInt64 (x : Int) : Nat := (x % 2 ^ 64).toNat

/-- Result (an `int`, 0 or 1) of the C relational operator `a < b` on `int` operands. -/
def c_lt (a b : Int) : Int := if a < b then 1 else 0

/-- Conversion of a C `bool` to `uint64_t`. -/
def boolToUInt64 (b : Bool) : Nat := if b then 1 else 0

/-! ## Syscall numbers -/

/-- Modelled from the spec: `syscall-nr.h` is not part of the sources; the numbers are the
positions in the syscall table of the spec (section 6), counted from zero. -/
def SYS_HALT : Int := 0
/-- Modelled from the spec: second entry of the syscall table. -/
def SYS_EXIT : Int := 1
/-- Modelled from the spec: third entry of the syscall table. -/
def SYS_FORK : Int := 2
/-- Modelled from the spec: fourth entry of the syscall table. -/
def SYS_EXEC : Int := 3
/-- Modelled from the spec: fifth entry of the syscall table. -/
def SYS_WAIT : Int := 4
/-- Modelled from the spec: sixth entry of the syscall table. -/
def SYS_CREATE : Int := 5
/-- Modelled from the spec: seventh entry of the syscall table. -/
def SYS_REMOVE : Int := 6
/-- Modelled from the spec: eighth entry of the syscall table. -/
def SYS_OPEN : Int := 7
/-- Modelled from the spec: ninth entry of the syscall table. -/
def SYS_FILESIZE : Int := 8
/-- Modelled from the spec: tenth entry of the syscall table. -/
def SYS_READ : Int := 9
/-- Modelled from the spec: eleventh entry of the syscall table. -/
def SYS_WRITE : Int := 10
/-- Modelled from the spec: twelfth entry of the syscall table. -/
def SYS_SEEK : Int := 11
/-- Modelled from the spec: thirteenth entry of the syscall table. -/
def SYS_TELL : Int := 12
/-- Modelled from the spec: fourteenth entry of the syscall table. -/
def SYS_CLOSE : Int := 13

/-! ## Data model -/

/-- The trapped frame `struct intr_frame`: the four registers the dispatcher names, and the
remaining saved registers, which it never names. All values are 64-bit register contents. -/
structure Frame where
  rax : Nat
  rdi : Nat
  rsi : Nat
  rdx : Nat
  saved : List Nat
deriving DecidableEq

/-- Calls with an effect outside `syscall.c`, in the order in which they are made.
Pointers are addresses, `NULL` is address 0. -/
inductive Event where
  | power_off
  | printf_exit (name : String) (status : Int)
  | thread_exit
  | lock_acquire
  | lock_release
  | process_fork (thread_name : Nat)
  | palloc_get_page
  | strlcpy (dst src size : Nat)
  | process_exec (line : Nat)
  | process_wait (tid : Int)
  | filesys_create (file : Nat) (initial_size : Int)
  | filesys_remove (file : Nat)
  | filesys_open (file : Nat)
  | set_fd (file : Nat)
  | close_file (fd : Int)
  | file_close (file : Nat)
  | file_length (file : Nat)
  | file_read (file buffer : Nat) (size : Int)
  | file_write (file buffer : Nat) (size : Int)
  | file_seek (file : Nat) (position : Int)
  | file_tell (file : Nat)
  | input_getc (key : Nat)
  | input_wait
  | store (addr byte : Nat)
  | putbuf (buffer size : Nat)
deriving DecidableEq

/-- Why a call did not come back to its caller. -/
inductive Stop where
  | exited
  | halted
  | blocked
  | replaced
deriving DecidableEq

/-- Outcome of running a piece of kernel code. -/
inductive Outcome (α : Type) where
  | returned (v : α)
  | stopped (why : Stop)
deriving DecidableEq

/-- Everything the handlers read or write: the call log, whether the current thread holds
`filesys_lock`, the fields `name` and `exit_status` of `thread_current ()`, the pending
console input, the state `σ` of the collaborators shared by all threads (filesystem, page
allocator, process subsystem) and the descriptor table `τ` of the current thread. -/
structure World (σ τ : Type) where
  trace : List Event
  lock_held : Bool
  name : String
  exit_status : Int
  input : List Nat
  fs : σ
  fdt : τ

/-- The collaborators of `syscall.c` that are not defined in it. Pointers are addresses and
`NULL` is 0. `process_exec` gives `none` when it switches to the new image instead of
returning. -/
structure Kernel (σ τ : Type) where
  FD_MAX : Int
  PGSIZE : Nat
  is_kernel_vaddr : Nat → Bool
  process_fork : σ → Nat → Frame → Int × σ
  palloc_get_page : σ → Nat × σ
  strlcpy : σ → Nat → Nat → Nat → σ
  process_exec : σ → Nat → Option Int × σ
  process_wait : σ → Int → Int × σ
  filesys_create : σ → Nat → Int → Bool × σ
  filesys_remove : σ → Nat → Bool × σ
  filesys_open : σ → Nat → Nat × σ
  file_close : σ → Nat → σ
  file_length : σ → Nat → Int
  file_read : σ → Nat → Nat → Int → Int × σ
  file_write : σ → Nat → Nat → Int → Int × σ
  file_seek : σ → Nat → Int → σ
  file_tell : σ → Nat → Int
  get_file : τ → Int → Nat
  set_fd : τ → Nat → Int × τ
  close_file : τ → Int → τ

/-- Kernel code over a world: a state transformer with an outcome. -/
def M (σ τ α : Type) : Type := World σ τ → Outcome α × World σ τ

/-- Sequencing: the continuation runs only when the first part returned. -/
def M.bind {σ τ α β : Type} (m : M σ τ α) (f : α → M σ τ β) : M σ τ β :=
  fun w =>
    match m w with
    | (Outcome.returned a, w1) => f a w1
    | (Outcome.stopped why, w1) => (Outcome.stopped why, w1)

instance {σ τ : Type} : Monad (M σ τ) where
  pure a := fun w => (Outcome.returned a, w)
  bind := M.bind

/-- Append one call to the log. -/
def emit {σ τ : Type} (e : Event) : M σ τ Unit :=
  fun w => (Outcome.returned (), { w with trace := w.trace ++ [e] })


/-! ## Collaborators, as calls from `syscall.c`

Each call runs the collaborator of the `Kernel` record on the part of the world it works
on and appends itself to the log. -/

section Calls
variable {σ τ : Type}

/-- The call `power_off ()`, which shuts the machine down. -/
def power_off : M σ τ Unit :=
  fun w => (Outcome.stopped Stop.halted, { w with trace := w.trace ++ [Event.power_off] })

/-- Modelled from the spec: `thread_exit ()` (`threads/thread.c`, not part of the sources)
tears the process down and control never returns to the caller. -/
def thread_exit : M σ τ Unit :=
  fun w => (Outcome.stopped Stop.exited, { w with trace := w.trace ++ [Event.thread_exit] })

/-- Modelled from the spec: `lock_acquire (&filesys_lock)` (`threads/synch.c`, not part of
the sources) makes the current thread the holder of the guard. -/
def lock_acquire : M σ τ Unit :=
  fun w => (Outcome.returned (),
    { w with lock_held := true, trace := w.trace ++ [Event.lock_acquire] })

/-- Modelled from the spec: `lock_release (&filesys_lock)` (`threads/synch.c`, not part of
the sources) gives the guard up. -/
def lock_release : M σ τ Unit :=
  fun w => (Outcome.returned (),
    { w with lock_held := false, trace := w.trace ++ [Event.lock_release] })

def process_fork (k : Kernel σ τ) (thread_name : Nat) (f : Frame) : M σ τ Int :=
  fun w => (Outcome.returned (k.process_fork w.fs thread_name f).1,
    { w with fs := (k.process_fork w.fs thread_name f).2,
             trace := w.trace ++ [Event.process_fork thread_name] })

def palloc_get_page (k : Kernel σ τ) : M σ τ Nat :=
  fun w => (Outcome.returned (k.palloc_get_page w.fs).1,
    { w with fs := (k.palloc_get_page w.fs).2, trace := w.trace ++ [Event.palloc_get_page] })

def strlcpy (k : Kernel σ τ) (dst src size : Nat) : M σ τ Unit :=
  fun w => (Outcome.returned (),
    { w with fs := k.strlcpy w.fs dst src size,
             trace := w.trace ++ [Event.strlcpy dst src size] })

def process_exec (k : Kernel σ τ) (line : Nat) : M σ τ Int :=
  fun w =>
    match (k.process_exec w.fs line).1 with
    | some succ => (Outcome.returned succ,
        { w with fs := (k.process_exec w.fs line).2,
                 trace := w.trace ++ [Event.process_exec line] })
    | none => (Outcome.stopped Stop.replaced,
        { w with fs := (k.process_exec w.fs line).2,
                 trace := w.trace ++ [Event.process_exec line] })

def process_wait (k : Kernel σ τ) (tid : Int) : M σ τ Int :=
  fun w => (Outcome.returned (k.process_wait w.fs tid).1,
    { w with fs := (k.process_wait w.fs tid).2, trace := w.trace ++ [Event.process_wait tid] })

def filesys_create (k : Kernel σ τ) (file : Nat) (initial_size : Int) : M σ τ Bool :=
  fun w => (Outcome.returned (k.filesys_create w.fs file initial_size).1,
    { w with fs := (k.filesys_create w.fs file initial_size).2,
             trace := w.trace ++ [Event.filesys_create file initial_size] })

def filesys_remove (k : Kernel σ τ) (file : Nat) : M σ τ Bool :=
  fun w => (Outcome.returned (k.filesys_remove w.fs file).1,
    { w with fs := (k.filesys_remove w.fs file).2,
             trace := w.trace ++ [Event.filesys_remove file] })

def filesys_open (k : Kernel σ τ) (file : Nat) : M σ τ Nat :=
  fun w => (Outcome.returned (k.filesys_open w.fs file).1,
    { w with fs := (k.filesys_open w.fs file).2, trace := w.trace ++ [Event.filesys_open file] })

def file_close (k : Kernel σ τ) (file : Nat) : M σ τ Unit :=
  fun w => (Outcome.returned (),
    { w with fs := k.file_close w.fs file, trace := w.trace ++ [Event.file_close file] })

def file_length (k : Kernel σ τ) (file : Nat) : M σ τ Int :=
  fun w => (Outcome.returned (k.file_length w.fs file),
    { w with trace := w.trace ++ [Event.file_length file] })

def file_read (k : Kernel σ τ) (file buffer : Nat) (size : Int) : M σ τ Int :=
  fun w => (Outcome.returned (k.file_read w.fs file buffer size).1,
    { w with fs := (k.file_read w.fs file buffer size).2,
             trace := w.trace ++ [Event.file_read file buffer size] })

def file_write (k : Kernel σ τ) (file buffer : Nat) (size : Int) : M σ τ Int :=
  fun w => (Outcome.returned (k.file_write w.fs file buffer size).1,
    { w with fs := (k.file_write w.fs file buffer size).2,
             trace := w.trace ++ [Event.file_write file buffer size] })

def file_seek (k : Kernel σ τ) (file : Nat) (position : Int) : M σ τ Unit :=
  fun w => (Outcome.returned (),
    { w with fs := k.file_seek w.fs file position,
             trace := w.trace ++ [Event.file_seek file position] })

def file_tell (k : Kernel σ τ) (file : Nat) : M σ τ Int :=
  fun w => (Outcome.returned (k.file_tell w.fs file),
    { w with trace := w.trace ++ [Event.file_tell file] })

/-- The lookup `get_file (fd)` in the descriptor table of the current thread. -/
def get_file (k : Kernel σ τ) (fd : Int) : M σ τ Nat :=
  fun w => (Outcome.returned (k.get_file w.fdt fd), w)

def set_fd (k : Kernel σ τ) (file : Nat) : M σ τ Int :=
  fun w => (Outcome.returned (k.set_fd w.fdt file).1,
    { w with fdt := (k.set_fd w.fdt file).2, trace := w.trace ++ [Event.set_fd file] })

def close_file (k : Kernel σ τ) (fd : Int) : M σ τ Unit :=
  fun w => (Outcome.returned (),
    { w with fdt := k.close_file w.fdt fd, trace := w.trace ++ [Event.close_file fd] })

/-- The call `putbuf (buffer, size)`: `size` bytes starting at `buffer` go to the console. -/
def putbuf (buffer size : Nat) : M σ τ Unit :=
  emit (Event.putbuf buffer size)

end Calls

/-! ## The code of `syscall.c` -/

section Code
variable {σ τ : Type}

/-- The assignment `cur->exit_status = status`. -/
def set_exit_status (status : Int) : M σ τ Unit :=
  fun w => (Outcome.returned (), { w with exit_status := status })

/-- The call `printf ("%s: exit(%d)\n", cur->name, cur->exit_status)`. -/
def printf_exit : M σ τ Unit :=
  fun w => emit (Event.printf_exit w.name w.exit_status) w

/-- The function `exit (status)`. -/
def exit (status : Int) : M σ τ Unit := do
  set_exit_status status
  printf_exit
  thread_exit

/-- The function `check_address (addr)`. -/
def check_address (k : Kernel σ τ) (addr : Nat) : M σ τ Bool :=
  if addr = 0 then do
    exit (-1)
    pure false
  else if k.is_kernel_vaddr addr = true then do
    exit (-1)
    pure false
  else
    pure true

/-- The function `fork (thread_name, f)`. -/
def fork (k : Kernel σ τ) (thread_name : Nat) (f : Frame) : M σ τ Int :=
  process_fork k thread_name f

/-- The function `exec (cmd_line)`. -/
def exec (k : Kernel σ τ) (cmd_line : Nat) : M σ τ Int := do
  let _ ← check_address k cmd_line
  let line_cpy ← palloc_get_page k
  if line_cpy = 0 then exit (-1)
  strlcpy k line_cpy cmd_line k.PGSIZE
  let succ ← process_exec k line_cpy
  if succ = -1 then exit (-1)
  pure succ

/-- The function `create (file, initial_size)`; `filesys_create` takes the size as `off_t`. -/
def create (k : Kernel σ τ) (file initial_size : Nat) : M σ τ Bool := do
  let _valid ← check_address k file
  lock_acquire
  let succ ← filesys_create k file (toInt32 initial_size)
  lock_release
  pure succ

/-- The function `remove (file)`. -/
def remove (k : Kernel σ τ) (file : Nat) : M σ τ Bool := do
  let _ ← check_address k file
  lock_acquire
  let succ ← filesys_remove k file
  lock_release
  pure succ

/-- The function `open (file)`; both lock calls are commented out in the source. -/
def sys_open (k : Kernel σ τ) (file : Nat) : M σ τ Int := do
  let _ ← check_address k file
  let f_open ← filesys_open k file
  if f_open = 0 then
    pure (-1)
  else do
    let fd ← set_fd k f_open
    if fd = -1 then file_close k f_open
    pure fd

/-- The function `filesize (fd)`. -/
def filesize (k : Kernel σ τ) (fd : Int) : M σ τ Int := do
  let file ← get_file k fd
  if file = 0 then pure (-1) else file_length k file

/-- Increment of an `int` with two's complement wrap-around. -/
def incr32 (x : Int) : Int := toInt32 (toUInt32 (x + 1))

/-- The loop of `read` for `fd == 0`:
`while (readbytes <= size) { *buf = input_getc (); buf++; readbytes++; }`.
The comparison is made in `unsigned`. The first argument is the pending console input;
`input_getc` waits for ever once it is used up. -/
def read_console (size : Nat) : List Nat → Int → Nat → M σ τ Int
  | [], readbytes, _ => fun w =>
      if toUInt32 readbytes ≤ size then
        (Outcome.stopped Stop.blocked,
          { w with input := [], trace := w.trace ++ [Event.input_wait] })
      else
        (Outcome.returned readbytes, { w with input := [] })
  | key :: rest, readbytes, buf => fun w =>
      if toUInt32 readbytes ≤ size then
        read_console size rest (incr32 readbytes) (buf + 1)
          { w with input := rest,
                   trace := w.trace ++ [Event.input_getc key, Event.store buf key] }
      else
        (Outcome.returned readbytes, { w with input := key :: rest })

/-- The function `read (fd, buffer, size)`; `file_read` takes the size as `off_t`. -/
def read (k : Kernel σ τ) (fd : Int) (buffer size : Nat) : M σ τ Int := do
  let _ ← check_address k buffer
  let readbytes : Int := -1
  lock_acquire
  let file ← get_file k fd
  let readbytes ←
    if fd = 0 then
      (fun w => read_console size w.input 0 buffer w)
    else if c_lt (c_lt 1 fd) k.FD_MAX ≠ 0 ∧ file ≠ 0 then
      file_read k file buffer (toInt32 size)
    else
      pure readbytes
  lock_release
  pure readbytes

/-- The function `write (fd, buffer, size)`; `file_write` takes the size as `off_t`. -/
def write (k : Kernel σ τ) (fd : Int) (buffer size : Nat) : M σ τ Int := do
  let _ ← check_address k buffer
  let writtenbytes : Int := -1
  lock_acquire
  let file ← get_file k fd
  let writtenbytes ←
    if fd = 1 then do
      putbuf buffer size
      pure (toInt32 size)
    else if c_lt (c_lt 1 fd) k.FD_MAX ≠ 0 ∧ file ≠ 0 then
      file_write k file buffer (toInt32 size)
    else
      pure writtenbytes
  lock_release
  pure writtenbytes

/-- The function `seek (fd, position)`; `file_seek` takes the position as `off_t`. -/
def seek (k : Kernel σ τ) (fd : Int) (position : Nat) : M σ τ Unit := do
  let file ← get_file k fd
  if file = 0 then pure () else file_seek k file (toInt32 position)

/-- The function `tell (fd)`. On the not-found path the source returns without a value;
`indeterminate` stands for what the caller then finds. -/
def tell (k : Kernel σ τ) (indeterminate : Nat) (fd : Int) : M σ τ Nat := do
  let file ← get_file k fd
  if file = 0 then
    pure indeterminate
  else do
    let pos ← file_tell k file
    pure (toUInt32 pos)

/-- The function `close (fd)`. -/
def close (k : Kernel σ τ) (fd : Int) : M σ τ Unit := do
  let file ← get_file k fd
  if file = 0 then
    pure ()
  else do
    file_close k file
    close_file k fd

/-- The dispatcher `syscall_handler (f)`: the result is the frame as the handler leaves it.
`int syscall_type = f->R.rax` truncates the register; the `switch` has no case for
`SYS_TELL`. -/
def syscall_handler (k : Kernel σ τ) (f : Frame) : M σ τ Frame :=
  let syscall_type : Int := toInt32 f.rax
  if syscall_type = SYS_HALT then do
    power_off
    pure f
  else if syscall_type = SYS_EXIT then do
    exit (toInt32 f.rdi)
    pure f
  else if syscall_type = SYS_FORK then do
    let r ← fork k f.rdi f
    pure { f with rax := toUInt64 r }
  else if syscall_type = SYS_EXEC then do
    let r ← exec k f.rdi
    pure { f with rax := toUInt64 r }
  else if syscall_type = SYS_WAIT then do
    let r ← process_wait k (toInt32 f.rdi)
    pure { f with rax := toUInt64 r }
  else if syscall_type = SYS_CREATE then do
    let r ← create k f.rdi f.rsi
    pure { f with rax := boolToUInt64 r }
  else if syscall_type = SYS_REMOVE then do
    let r ← remove k f.rdi
    pure { f with rax := boolToUInt64 r }
  else if syscall_type = SYS_OPEN then do
    let r ← sys_open k f.rdi
    pure { f with rax := toUInt64 r }
  else if syscall_type = SYS_FILESIZE then do
    let r ← filesize k (toInt32 f.rdi)
    pure { f with rax := toUInt64 r }
  else if syscall_type = SYS_READ then do
    let r ← read k (toInt32 f.rdi) f.rsi (f.rdx % 2 ^ 32)
    pure { f with rax := toUInt64 r }
  else if syscall_type = SYS_WRITE then do
    let r ← write k (toInt32 f.rdi) f.rsi (f.rdx % 2 ^ 32)
    pure { f with rax := toUInt64 r }
  else if syscall_type = SYS_SEEK then do
    seek k (toInt32 f.rdi) (f.rsi % 2 ^ 32)
    pure f
  else if syscall_type = SYS_CLOSE then do
    close k (toInt32 f.rdi)
    pure f
  else
    pure f

end Code

/-! ## A small concrete kernel

Used to run the code on concrete inputs. -/

/-- Filesystem state of the small kernel: the names that exist (as the addresses of the
path strings), the open references with their cursor, and the next fresh reference. -/
structure ToyFs where
  names : List Nat
  cursors : List (Nat × Int)
  next : Nat
deriving DecidableEq

/-- Descriptor table of the small kernel: the stored handles with their reference. -/
abbrev ToyFdt : Type := List (Int × Nat)

/-- Reference stored under `fd`, or `NULL`. -/
def ToyFdt.lookup (t : ToyFdt) (fd : Int) : Nat :=
  match t.find? (fun e => e.1 = fd) with
  | some e => e.2
  | none => 0

/-- Modelled from the spec: `allocate` of section 4.3, which is not part of the sources:
the reference goes under a handle not in use, above the two reserved handles and below
`FD_MAX` (here the lowest one); `-1` says that the table is full. -/
def ToyFdt.alloc (fd_max : Int) (t : ToyFdt) (file : Nat) : Int × ToyFdt :=
  match ((List.range fd_max.toNat).map (fun i => (i : Int))).find?
      (fun fd => decide (1 < fd) && decide (t.lookup fd = 0)) with
  | some fd => (fd, (fd, file) :: t)
  | none => (-1, t)

/-- A kernel with `FD_MAX = fd_max`, the kernel base of the x86-64 port, files without
content, and a process subsystem that forks nothing. -/
def toyKernel (fd_max : Int) : Kernel ToyFs ToyFdt where
  FD_MAX := fd_max
  PGSIZE := 4096
  is_kernel_vaddr := fun a => decide (0x8004000000 ≤ a)
  process_fork := fun s _ _ => (-1, s)
  palloc_get_page := fun s => (0x8004200000, s)
  strlcpy := fun s _ _ _ => s
  process_exec := fun s _ => (some (-1), s)
  process_wait := fun s _ => (-1, s)
  filesys_create := fun s file _ =>
    if file ∈ s.names then (false, s) else (true, { s with names := file :: s.names })
  filesys_remove := fun s file =>
    if file ∈ s.names then (true, { s with names := s.names.erase file }) else (false, s)
  filesys_open := fun s file =>
    if file ∈ s.names then
      (s.next, { s with cursors := (s.next, 0) :: s.cursors, next := s.next + 1 })
    else (0, s)
  file_close := fun s file => { s with cursors := s.cursors.filter (fun c => c.1 ≠ file) }
  file_length := fun _ _ => 0
  file_read := fun s _ _ _ => (0, s)
  file_write := fun s _ _ size => (size, s)
  file_seek := fun s file position =>
    { s with cursors := s.cursors.map (fun c => if c.1 = file then (file, position) else c) }
  file_tell := fun s file =>
    match s.cursors.find? (fun c => c.1 = file) with
    | some c => c.2
    | none => 0
  get_file := fun t fd => t.lookup fd
  set_fd := fun t file => ToyFdt.alloc fd_max t file
  close_file := fun t fd => t.filter (fun e => e.1 ≠ fd)

/-- A world of the small kernel: process `main`, guard free, the given console input,
names and descriptor table. -/
def toyWorld (input names : List Nat) (cursors : List (Nat × Int)) (t : ToyFdt) :
    World ToyFs ToyFdt where
  trace := []
  lock_held := false
  name := "main"
  exit_status := 0
  input := input
  fs := { names := names, cursors := cursors, next := 1000 }
  fdt := t

/-! ## Vocabulary of the statements -/

section Vocabulary
variable {σ τ : Type}

/-- The world that `exit (-1)` leaves behind: status stored, line printed, thread gone. -/
def terminated (w : World σ τ) : World σ τ :=
  { w with exit_status := -1,
           trace := w.trace ++ [Event.printf_exit w.name (-1), Event.thread_exit] }

/-- The address is neither null nor a kernel address. -/
def valid_address (k : Kernel σ τ) (addr : Nat) : Prop :=
  addr ≠ 0 ∧ k.is_kernel_vaddr addr = false

/-- The calls into the shared filesystem made by `create`, `remove`, `open`, `read`, `write`. -/
def is_filesys_call : Event → Bool
  | Event.filesys_create _ _ => true
  | Event.filesys_remove _ => true
  | Event.filesys_open _ => true
  | Event.file_read _ _ _ => true
  | Event.file_write _ _ _ => true
  | _ => false

/-- The calls on `filesys_lock`. -/
def is_lock_call : Event → Bool
  | Event.lock_acquire => true
  | Event.lock_release => true
  | _ => false

/-- The calls of the console loop of `read`. -/
def is_console_call : Event → Bool
  | Event.input_getc _ => true
  | Event.input_wait => true
  | Event.store _ _ => true
  | _ => false

/-- The calls on `filesys_lock` among the logged calls, in order. -/
def lock_events (ev : List Event) : List Event := ev.filter is_lock_call

/-- Replays a log from a state of the guard (`held`) and says whether every call into the
shared filesystem was made while the guard was held. -/
def guard_respected : Bool → List Event → Bool
  | _, [] => true
  | _, Event.lock_acquire :: es => guard_respected true es
  | _, Event.lock_release :: es => guard_respected false es
  | held, e :: es => (!is_filesys_call e || held) && guard_respected held es

/-- State of the guard after a log has been replayed from `held`. -/
def guard_after : Bool → List Event → Bool
  | held, [] => held
  | _, Event.lock_acquire :: es => guard_after true es
  | _, Event.lock_release :: es => guard_after false es
  | held, _ :: es => guard_after held es

/-- What the console loop of `read` logs for the keys it takes, first destination `buf`. -/
def console_events : Nat → List Nat → List Event
  | _, [] => []
  | buf, key :: rest =>
      Event.input_getc key :: Event.store buf key :: console_events (buf + 1) rest

/-- The world in which the guarded part of a handler starts: `lock_acquire` has been called. -/
def acquired (w : World σ τ) : World σ τ :=
  { w with lock_held := true, trace := w.trace ++ [Event.lock_acquire] }

/-- The end of a guarded handler: when the guarded part came back, `lock_release` is called
and its value is returned; when it did not, nothing follows. -/
def release_and_return {α : Type} (r : Outcome α × World σ τ) : Outcome α × World σ τ :=
  match r with
  | (Outcome.returned v, w1) =>
      (Outcome.returned v,
        { w1 with lock_held := false, trace := w1.trace ++ [Event.lock_release] })
  | (Outcome.stopped why, w1) => (Outcome.stopped why, w1)

/-- Between entry in `w` and the result `r`, exactly one `lock_acquire` was logged, followed
by exactly one `lock_release`, and the guard is free in the end. -/
def guard_balanced {α : Type} (w : World σ τ) (r : Outcome α × World σ τ) : Prop :=
  ∃ ev, r.2.trace = w.trace ++ ev ∧
    lock_events ev = [Event.lock_acquire, Event.lock_release] ∧ r.2.lock_held = false

/-- Between entry in `w` and the result `r`, no call on the guard was logged, and the guard
is free in the end. -/
def guard_untouched {α : Type} (w : World σ τ) (r : Outcome α × World σ τ) : Prop :=
  ∃ ev, r.2.trace = w.trace ++ ev ∧ lock_events ev = [] ∧ r.2.lock_held = false

/-- The discipline of a guarded handler with pointer argument `p`, entered in `w` with
result `r`: if it returned, the guard was taken once, then released once, and is free; if
`p` is null or a kernel address, the process was terminated without any call on the guard. -/
def guard_discipline {α : Type} (k : Kernel σ τ) (p : Nat) (w : World σ τ)
    (r : Outcome α × World σ τ) : Prop :=
  ((∃ v, r.1 = Outcome.returned v) → guard_balanced w r) ∧
  (p = 0 ∨ k.is_kernel_vaddr p = true →
    r.1 = Outcome.stopped Stop.exited ∧ guard_untouched w r)

/-- Between entry in `w` and the result `r`, every call into the shared filesystem was made
with the guard held. -/
def calls_guarded {α : Type} (w : World σ τ) (r : Outcome α × World σ τ) : Prop :=
  ∃ ev, r.2.trace = w.trace ++ ev ∧ guard_respected w.lock_held ev = true

/-- The call came back to its caller, and between entry in `w` and the result `r` exactly
one `lock_acquire` was logged, followed by exactly one `lock_release`, the guard being free
in the end. -/
def returns_balanced {α : Type} (w : World σ τ) (r : Outcome α × World σ τ) : Prop :=
  (∃ v, r.1 = Outcome.returned v) ∧ guard_balanced w r

/-- The numbers of the syscall table of the spec (section 6): the recognized syscalls. -/
def recognized : List Int :=
  [SYS_HALT, SYS_EXIT, SYS_FORK, SYS_EXEC, SYS_WAIT, SYS_CREATE, SYS_REMOVE, SYS_OPEN,
   SYS_FILESIZE, SYS_READ, SYS_WRITE, SYS_SEEK, SYS_TELL, SYS_CLOSE]

/-- The numbers for which the `switch` of `syscall_handler` has a case. -/
def dispatched : List Int :=
  [SYS_HALT, SYS_EXIT, SYS_FORK, SYS_EXEC, SYS_WAIT, SYS_CREATE, SYS_REMOVE, SYS_OPEN,
   SYS_FILESIZE, SYS_READ, SYS_WRITE, SYS_SEEK, SYS_CLOSE]

end Vocabulary

/-! ## Basic facts about sequencing, the validator and the handlers -/

section Lemmas
variable {σ τ : Type}

theorem bind_apply {α β : Type} (m : M σ τ α) (f : α → M σ τ β) (w : World σ τ) :
    (m >>= f) w =
      match m w with
      | (Outcome.returned a, w1) => f a w1
      | (Outcome.stopped why, w1) => (Outcome.stopped why, w1) := rfl

theorem pure_apply {α : Type} (a : α) (w : World σ τ) :
    (pure a : M σ τ α) w = (Outcome.returned a, w) := rfl

theorem then_pure_of_returns {α : Type} (m : M σ τ Unit) (a : α) (w : World σ τ)
    (h : (m w).1 = Outcome.returned ()) :
    (m >>= fun _ => (pure a : M σ τ α)) w = (Outcome.returned a, (m w).2) := by
  rw [bind_apply]
  generalize m w = r at h
  obtain ⟨o, w1⟩ := r
  simp only at h
  subst h
  rfl

theorem exit_apply (status : Int) (w : World σ τ) :
    exit status w = (Outcome.stopped Stop.exited,
      { w with exit_status := status,
               trace := w.trace ++ [Event.printf_exit w.name status, Event.thread_exit] }) := by
  simp [exit, bind_apply, set_exit_status, printf_exit, emit, thread_exit]

theorem check_address_invalid (k : Kernel σ τ) (addr : Nat) (w : World σ τ)
    (h : addr = 0 ∨ k.is_kernel_vaddr addr = true) :
    check_address k addr w = (Outcome.stopped Stop.exited, terminated w) := by
  unfold check_address
  by_cases h0 : addr = 0
  · simp [h0, bind_apply, exit_apply, terminated]
  · have hk : k.is_kernel_vaddr addr = true := by
      rcases h with h | h
      · exact absurd h h0
      · exact h
    simp [h0, hk, bind_apply, exit_apply, terminated]

theorem check_address_valid (k : Kernel σ τ) (addr : Nat) (w : World σ τ)
    (h : valid_address k addr) :
    check_address k addr w = (Outcome.returned true, w) := by
  unfold check_address
  simp [h.1, h.2, pure_apply]

theorem valid_address_of_not_invalid (k : Kernel σ τ) (p : Nat)
    (h : ¬ (p = 0 ∨ k.is_kernel_vaddr p = true)) : valid_address k p := by
  unfold valid_address
  push_neg at h
  refine ⟨h.1, ?_⟩
  cases hk : k.is_kernel_vaddr p
  · rfl
  · exact absurd hk h.2

/-! ### The handlers on a rejected pointer -/

theorem exec_invalid (k : Kernel σ τ) (w : World σ τ) (cmd_line : Nat)
    (h : cmd_line = 0 ∨ k.is_kernel_vaddr cmd_line = true) :
    exec k cmd_line w = (Outcome.stopped Stop.exited, terminated w) := by
  simp [exec, bind_apply, check_address_invalid k cmd_line w h]

theorem create_invalid (k : Kernel σ τ) (w : World σ τ) (file initial_size : Nat)
    (h : file = 0 ∨ k.is_kernel_vaddr file = true) :
    create k file initial_size w = (Outcome.stopped Stop.exited, terminated w) := by
  simp [create, bind_apply, check_address_invalid k file w h]

theorem remove_invalid (k : Kernel σ τ) (w : World σ τ) (file : Nat)
    (h : file = 0 ∨ k.is_kernel_vaddr file = true) :
    remove k file w = (Outcome.stopped Stop.exited, terminated w) := by
  simp [remove, bind_apply, check_address_invalid k file w h]

theorem open_invalid (k : Kernel σ τ) (w : World σ τ) (file : Nat)
    (h : file = 0 ∨ k.is_kernel_vaddr file = true) :
    sys_open k file w = (Outcome.stopped Stop.exited, terminated w) := by
  simp [sys_open, bind_apply, check_address_invalid k file w h]

theorem read_invalid (k : Kernel σ τ) (w : World σ τ) (fd : Int) (buffer size : Nat)
    (h : buffer = 0 ∨ k.is_kernel_vaddr buffer = true) :
    read k fd buffer size w = (Outcome.stopped Stop.exited, terminated w) := by
  simp [read, bind_apply, check_address_invalid k buffer w h]

theorem write_invalid (k : Kernel σ τ) (w : World σ τ) (fd : Int) (buffer size : Nat)
    (h : buffer = 0 ∨ k.is_kernel_vaddr buffer = true) :
    write k fd buffer size w = (Outcome.stopped Stop.exited, terminated w) := by
  simp [write, bind_apply, check_address_invalid k buffer w h]

/-! ### The guarded handlers on an accepted pointer -/

theorem create_guarded (k : Kernel σ τ) (w : World σ τ) (file initial_size : Nat)
    (hv : valid_address k file) :
    create k file initial_size w =
      release_and_return (filesys_create k file (toInt32 initial_size) (acquired w)) := by
  simp only [create, bind_apply, check_address_valid k file w hv, lock_acquire]
  rfl

theorem remove_guarded (k : Kernel σ τ) (w : World σ τ) (file : Nat)
    (hv : valid_address k file) :
    remove k file w = release_and_return (filesys_remove k file (acquired w)) := by
  simp only [remove, bind_apply, check_address_valid k file w hv, lock_acquire]
  rfl

theorem read_guarded (k : Kernel σ τ) (w : World σ τ) (fd : Int) (buffer size : Nat)
    (hv : valid_address k buffer) :
    read k fd buffer size w =
      release_and_return
        (if fd = 0 then read_console size w.input 0 buffer (acquired w)
         else if c_lt (c_lt 1 fd) k.FD_MAX ≠ 0 ∧ k.get_file w.fdt fd ≠ 0 then
           file_read k (k.get_file w.fdt fd) buffer (toInt32 size) (acquired w)
         else (Outcome.returned (-1), acquired w)) := by
  simp only [read, bind_apply, check_address_valid k buffer w hv, lock_acquire, get_file]
  by_cases h0 : fd = 0
  · rw [if_pos h0, if_pos h0]
    rfl
  · rw [if_neg h0, if_neg h0]
    by_cases hc : c_lt (c_lt 1 fd) k.FD_MAX ≠ 0 ∧ k.get_file w.fdt fd ≠ 0
    · rw [if_pos hc, if_pos hc]
      rfl
    · rw [if_neg hc, if_neg hc]
      rfl

theorem write_guarded (k : Kernel σ τ) (w : World σ τ) (fd : Int) (buffer size : Nat)
    (hv : valid_address k buffer) :
    write k fd buffer size w =
      release_and_return
        (if fd = 1 then
           (Outcome.returned (toInt32 size),
             { acquired w with trace := (acquired w).trace ++ [Event.putbuf buffer size] })
         else if c_lt (c_lt 1 fd) k.FD_MAX ≠ 0 ∧ k.get_file w.fdt fd ≠ 0 then
           file_write k (k.get_file w.fdt fd) buffer (toInt32 size) (acquired w)
         else (Outcome.returned (-1), acquired w)) := by
  simp only [write, bind_apply, check_address_valid k buffer w hv, lock_acquire, get_file]
  by_cases h1 : fd = 1
  · rw [if_pos h1, if_pos h1]
    rfl
  · rw [if_neg h1, if_neg h1]
    by_cases hc : c_lt (c_lt 1 fd) k.FD_MAX ≠ 0 ∧ k.get_file w.fdt fd ≠ 0
    · rw [if_pos hc, if_pos hc]
      rfl
    · rw [if_neg hc, if_neg hc]
      rfl

/-! ### The console loop -/

theorem read_console_step (size key : Nat) (rest : List Nat) (readbytes : Int) (buf : Nat)
    (w : World σ τ) (hc : toUInt32 readbytes ≤ size) :
    read_console size (key :: rest) readbytes buf w =
      read_console size rest (incr32 readbytes) (buf + 1)
        { w with input := rest,
                 trace := w.trace ++ [Event.input_getc key, Event.store buf key] } := by
  simp only [read_console, if_pos hc]

theorem read_console_done (size : Nat) (input : List Nat) (readbytes : Int) (buf : Nat)
    (w : World σ τ) (hc : ¬ toUInt32 readbytes ≤ size) :
    read_console size input readbytes buf w =
      (Outcome.returned readbytes, { w with input := input }) := by
  cases input with
  | nil => simp only [read_console, if_neg hc]
  | cons a as => simp only [read_console, if_neg hc]

theorem read_console_effect (size : Nat) (input : List Nat) :
    ∀ (readbytes : Int) (buf : Nat) (w : World σ τ),
      ∃ ev, (read_console size input readbytes buf w).2.trace = w.trace ++ ev ∧
        (∀ e ∈ ev, is_console_call e = true) := by
  induction input with
  | nil =>
    intro readbytes buf w
    by_cases h : toUInt32 readbytes ≤ size
    · refine ⟨[Event.input_wait], ?_⟩
      simp [read_console, h, is_console_call]
    · refine ⟨[], ?_⟩
      simp [read_console, h]
  | cons key rest ih =>
    intro readbytes buf w
    by_cases h : toUInt32 readbytes ≤ size
    · obtain ⟨ev, h1, h2⟩ := ih (incr32 readbytes) (buf + 1)
        { w with input := rest,
                 trace := w.trace ++ [Event.input_getc key, Event.store buf key] }
      refine ⟨Event.input_getc key :: Event.store buf key :: ev, ?_, ?_⟩
      · rw [read_console_step size key rest readbytes buf w h, h1]
        simp
      · intro e he
        simp only [List.mem_cons] at he
        rcases he with he | he | he
        · subst he; rfl
        · subst he; rfl
        · exact h2 e he
    · refine ⟨[], ?_⟩
      simp [read_console, h]

theorem read_console_not_exited (size : Nat) (input : List Nat) :
    ∀ (readbytes : Int) (buf : Nat) (w : World σ τ),
      (read_console size input readbytes buf w).1 ≠ Outcome.stopped Stop.exited := by
  induction input with
  | nil =>
    intro readbytes buf w
    by_cases h : toUInt32 readbytes ≤ size
    · simp [read_console, h]
    · simp [read_console, h]
  | cons key rest ih =>
    intro readbytes buf w
    by_cases h : toUInt32 readbytes ≤ size
    · rw [read_console_step size key rest readbytes buf w h]
      exact ih _ _ _
    · simp [read_console, h]

theorem release_and_return_outcome {α : Type} (r : Outcome α × World σ τ) :
    (release_and_return r).1 = r.1 := by
  obtain ⟨o, w1⟩ := r
  cases o <;> rfl

theorem toUInt32_natCast (r : Nat) (h : r < 2 ^ 32) : toUInt32 (r : Int) = r := by
  unfold toUInt32
  have : ((r : Int) % 2 ^ 32) = (r : Int) := by
    apply Int.emod_eq_of_lt <;> omega
  rw [this]
  simp

theorem incr32_natCast (r : Nat) (h : r + 1 < 2 ^ 31) :
    incr32 (r : Int) = ((r + 1 : Nat) : Int) := by
  unfold incr32
  have h1 : toUInt32 ((r : Int) + 1) = r + 1 := by
    have := toUInt32_natCast (r + 1) (by omega)
    simpa using this
  rw [h1]
  unfold toInt32
  have h2 : (r + 1) % 2 ^ 32 = r + 1 := Nat.mod_eq_of_lt (by omega)
  rw [h2, if_pos h]

theorem read_console_count (size : Nat) (hs : size + 1 < 2 ^ 31) (rest : List Nat) :
    ∀ (keys : List Nat) (r buf : Nat) (w : World σ τ), r + keys.length = size + 1 →
      read_console size (keys ++ rest) (r : Int) buf w =
        (Outcome.returned ((size + 1 : Nat) : Int),
          { w with input := rest, trace := w.trace ++ console_events buf keys }) := by
  intro keys
  induction keys with
  | nil =>
    intro r buf w hr
    have hr1 : r = size + 1 := by simpa using hr
    subst hr1
    have hc : ¬ toUInt32 ((size + 1 : Nat) : Int) ≤ size := by
      rw [toUInt32_natCast _ (by omega)]
      omega
    rw [List.nil_append, read_console_done size rest _ buf w hc]
    simp only [console_events, List.append_nil]
  | cons key keys ih =>
    intro r buf w hr
    have hlen : r + keys.length + 1 = size + 1 := by simpa [Nat.add_assoc] using hr
    have hc : toUInt32 (r : Int) ≤ size := by
      rw [toUInt32_natCast _ (by omega)]
      omega
    rw [List.cons_append, read_console_step size key (keys ++ rest) _ buf w hc,
      incr32_natCast r (by omega), ih (r + 1) (buf + 1) _ (by omega)]
    simp [console_events]

/-! ### Logs and the guard -/

theorem lock_events_console (ev : List Event) (h : ∀ e ∈ ev, is_console_call e = true) :
    lock_events ev = [] := by
  unfold lock_events
  rw [List.filter_eq_nil_iff]
  intro e he
  have := h e he
  cases e <;> simp_all [is_console_call, is_lock_call]

theorem guard_respected_append (a b : List Event) :
    ∀ held, guard_respected held (a ++ b) =
      (guard_respected held a && guard_respected (guard_after held a) b) := by
  induction a with
  | nil => intro held; simp [guard_respected, guard_after]
  | cons e es ih =>
    intro held
    cases e <;> simp [guard_respected, guard_after, ih, Bool.and_assoc]

theorem guard_respected_console (ev : List Event) (h : ∀ e ∈ ev, is_console_call e = true) :
    ∀ held, guard_respected held ev = true := by
  induction ev with
  | nil => intro held; simp [guard_respected]
  | cons e es ih =>
    intro held
    have he := h e (List.mem_cons_self e es)
    have hes := ih (fun x hx => h x (List.mem_cons_of_mem e hx)) held
    cases e <;> simp [is_console_call] at he <;>
      simp [guard_respected, is_filesys_call, hes]

theorem untouched_of_terminated {α : Type} (w : World σ τ) (r : Outcome α × World σ τ)
    (hfree : w.lock_held = false) (hr : r = (Outcome.stopped Stop.exited, terminated w)) :
    r.1 = Outcome.stopped Stop.exited ∧ guard_untouched w r := by
  subst hr
  refine ⟨rfl, [Event.printf_exit w.name (-1), Event.thread_exit], rfl, rfl, ?_⟩
  simpa [terminated] using hfree

theorem balanced_of_body {α : Type} (w : World σ τ) (r : Outcome α × World σ τ)
    (ev : List Event) (ht : r.2.trace = (acquired w).trace ++ ev) (hl : lock_events ev = [])
    (hret : ∃ v, (release_and_return r).1 = Outcome.returned v) :
    guard_balanced w (release_and_return r) := by
  obtain ⟨o, w1⟩ := r
  cases o with
  | stopped why =>
    obtain ⟨v, hv⟩ := hret
    simp [release_and_return] at hv
  | returned v =>
    refine ⟨[Event.lock_acquire] ++ ev ++ [Event.lock_release], ?_, ?_, ?_⟩
    · simp only [release_and_return]
      simp only at ht
      rw [ht]
      simp [acquired]
    · unfold lock_events at hl ⊢
      simp [List.filter_append, hl, is_lock_call]
    · simp [release_and_return]

theorem discipline_of_shape {α : Type} (k : Kernel σ τ) (p : Nat) (w : World σ τ)
    (r : Outcome α × World σ τ) (hfree : w.lock_held = false)
    (hinv : p = 0 ∨ k.is_kernel_vaddr p = true →
      r = (Outcome.stopped Stop.exited, terminated w))
    (hval : valid_address k p → ∃ body ev, r = release_and_return body ∧
      body.2.trace = (acquired w).trace ++ ev ∧ lock_events ev = []) :
    guard_discipline k p w r := by
  constructor
  · intro hret
    by_cases hp : p = 0 ∨ k.is_kernel_vaddr p = true
    · obtain ⟨v, hv⟩ := hret
      rw [hinv hp] at hv
      simp at hv
    · obtain ⟨body, ev, hr, ht, hl⟩ := hval (valid_address_of_not_invalid k p hp)
      subst hr
      exact balanced_of_body w body ev ht hl hret
  · intro hp
    exact untouched_of_terminated w r hfree (hinv hp)

theorem guarded_of_body {α : Type} (w : World σ τ) (r : Outcome α × World σ τ)
    (ev : List Event) (ht : r.2.trace = (acquired w).trace ++ ev)
    (hg : guard_respected true ev = true) :
    calls_guarded w (release_and_return r) := by
  obtain ⟨o, w1⟩ := r
  simp only at ht
  cases o with
  | stopped why =>
    refine ⟨[Event.lock_acquire] ++ ev, ?_, ?_⟩
    · simp only [release_and_return]
      rw [ht]
      simp [acquired]
    · simpa [guard_respected] using hg
  | returned v =>
    refine ⟨[Event.lock_acquire] ++ (ev ++ [Event.lock_release]), ?_, ?_⟩
    · simp only [release_and_return]
      rw [ht]
      simp [acquired]
    · have := guard_respected_append ev [Event.lock_release] true
      simp [guard_respected, this, hg]

theorem guarded_of_terminated {α : Type} (w : World σ τ) (r : Outcome α × World σ τ)
    (hr : r = (Outcome.stopped Stop.exited, terminated w)) : calls_guarded w r := by
  subst hr
  exact ⟨[Event.printf_exit w.name (-1), Event.thread_exit], rfl,
    by simp [guard_respected, is_filesys_call]⟩

/-! ### Handlers that always come back -/

theorem create_returns (k : Kernel σ τ) (w : World σ τ) (file initial_size : Nat)
    (hv : valid_address k file) :
    ∃ v, (create k file initial_size w).1 = Outcome.returned v := by
  rw [create_guarded k w file initial_size hv, release_and_return_outcome]
  exact ⟨_, rfl⟩

theorem remove_returns (k : Kernel σ τ) (w : World σ τ) (file : Nat)
    (hv : valid_address k file) :
    ∃ v, (remove k file w).1 = Outcome.returned v := by
  rw [remove_guarded k w file hv, release_and_return_outcome]
  exact ⟨_, rfl⟩

theorem read_file_returns (k : Kernel σ τ) (w : World σ τ) (fd : Int) (buffer size : Nat)
    (hv : valid_address k buffer) (h0 : fd ≠ 0) :
    ∃ v, (read k fd buffer size w).1 = Outcome.returned v := by
  rw [read_guarded k w fd buffer size hv, release_and_return_outcome, if_neg h0]
  by_cases hc : c_lt (c_lt 1 fd) k.FD_MAX ≠ 0 ∧ k.get_file w.fdt fd ≠ 0
  · rw [if_pos hc]
    exact ⟨_, rfl⟩
  · rw [if_neg hc]
    exact ⟨_, rfl⟩

theorem read_console_returns (k : Kernel σ τ) (w : World σ τ) (buffer size : Nat)
    (keys rest : List Nat) (hv : valid_address k buffer) (hn : size + 1 < 2 ^ 31)
    (hin : w.input = keys ++ rest) (hlen : keys.length = size + 1) :
    (read k 0 buffer size w).1 = Outcome.returned ((size + 1 : Nat) : Int) := by
  rw [read_guarded k w 0 buffer size hv, release_and_return_outcome, if_pos rfl]
  have h := read_console_count size hn rest keys 0 buffer (acquired w) (by omega)
  simp only [Nat.cast_zero] at h
  rw [hin, h]

theorem write_returns (k : Kernel σ τ) (w : World σ τ) (fd : Int) (buffer size : Nat)
    (hv : valid_address k buffer) :
    ∃ v, (write k fd buffer size w).1 = Outcome.returned v := by
  rw [write_guarded k w fd buffer size hv, release_and_return_outcome]
  by_cases h1 : fd = 1
  · rw [if_pos h1]
    exact ⟨_, rfl⟩
  · rw [if_neg h1]
    by_cases hc : c_lt (c_lt 1 fd) k.FD_MAX ≠ 0 ∧ k.get_file w.fdt fd ≠ 0
    · rw [if_pos hc]
      exact ⟨_, rfl⟩
    · rw [if_neg hc]
      exact ⟨_, rfl⟩

theorem seek_returns (k : Kernel σ τ) (w : World σ τ) (fd : Int) (position : Nat) :
    (seek k fd position w).1 = Outcome.returned () := by
  by_cases h : k.get_file w.fdt fd = 0
  · simp [seek, bind_apply, pure_apply, get_file, h]
  · simp [seek, bind_apply, get_file, h, file_seek]

theorem close_returns (k : Kernel σ τ) (w : World σ τ) (fd : Int) :
    (close k fd w).1 = Outcome.returned () := by
  by_cases h : k.get_file w.fdt fd = 0
  · simp [close, bind_apply, pure_apply, get_file, h]
  · simp [close, bind_apply, get_file, h, file_close, close_file]

end Lemmas

/-! ## Pointer validation -/

section Validation
variable {σ τ : Type}

/-- C2. When the pointer argument of `exec`, `create`, `remove`, `open`, `read` or `write`
is null or a kernel address, the call does not return: the process is terminated, and the
world it leaves differs from the one it found only in `exit_status = -1` and in the two
logged calls of `exit`: the line `<name>: exit(-1)` and `thread_exit`. So there is no
filesystem call, no console transfer, no change of the descriptor table and no
`lock_acquire` on the way. -/
theorem invalid_pointer_terminates (k : Kernel σ τ) (w : World σ τ) (p : Nat)
    (h : p = 0 ∨ k.is_kernel_vaddr p = true) :
    exec k p w = (Outcome.stopped Stop.exited, terminated w) ∧
    (∀ initial_size, create k p initial_size w = (Outcome.stopped Stop.exited, terminated w)) ∧
    remove k p w = (Outcome.stopped Stop.exited, terminated w) ∧
    sys_open k p w = (Outcome.stopped Stop.exited, terminated w) ∧
    (∀ fd size, read k fd p size w = (Outcome.stopped Stop.exited, terminated w)) ∧
    (∀ fd size, write k fd p size w = (Outcome.stopped Stop.exited, terminated w)) :=
  ⟨exec_invalid k w p h, fun s => create_invalid k w p s h, remove_invalid k w p h,
    open_invalid k w p h, fun fd size => read_invalid k w fd p size h,
    fun fd size => write_invalid k w fd p size h⟩

/-- C2 at the small kernel: `write (1, NULL, 3)` with a file present and handle 2 open. -/
theorem invalid_pointer_terminates_witness :
    write (toyKernel 128) 1 0 3 (toyWorld [65] [4096] [(1000, 0)] [(2, 1000)]) =
      (Outcome.stopped Stop.exited,
        terminated (toyWorld [65] [4096] [(1000, 0)] [(2, 1000)])) ∧
    (terminated (toyWorld [65] [4096] [(1000, 0)] [(2, 1000)])).exit_status = -1 ∧
    (terminated (toyWorld [65] [4096] [(1000, 0)] [(2, 1000)])).trace =
      [Event.printf_exit "main" (-1), Event.thread_exit] :=
  ⟨(invalid_pointer_terminates (toyKernel 128)
      (toyWorld [65] [4096] [(1000, 0)] [(2, 1000)]) 0 (Or.inl rfl)).2.2.2.2.2 1 3, rfl, rfl⟩

/-- C3, as stated, fails: `write (1, buffer, 2)` with `buffer` the last user address. The
second byte of the range lies at the kernel base, yet the call is not terminated: the two
bytes are handed to `putbuf` and 2 is returned. -/
theorem buffer_range_not_validated :
    (toyKernel 128).is_kernel_vaddr 0x8003ffffff = false ∧
    (toyKernel 128).is_kernel_vaddr (0x8003ffffff + 1) = true ∧
    (write (toyKernel 128) 1 0x8003ffffff 2 (toyWorld [] [] [] [])).1 = Outcome.returned 2 ∧
    (write (toyKernel 128) 1 0x8003ffffff 2 (toyWorld [] [] [] [])).2.trace =
      [Event.lock_acquire, Event.putbuf 0x8003ffffff 2, Event.lock_release] ∧
    (write (toyKernel 128) 1 0x8003ffffff 2 (toyWorld [] [] [] [])).2.exit_status = 0 := by
  decide

/-- C3, amended. `read` and `write` validate the start address `buffer` only. What the
validator says about any other address has no influence on the call (`isk` is any
classification of addresses that agrees with the kernel at `buffer`). When `buffer` itself
is null or a kernel address the process is terminated with status -1 before any byte is
transferred. When `buffer` is a non-null user address the call is never ended by the
validator, wherever the range ends. -/
theorem buffer_start_validated (k : Kernel σ τ) (w : World σ τ) (fd : Int) (buffer size : Nat)
    (isk : Nat → Bool) (h : isk buffer = k.is_kernel_vaddr buffer) :
    read { k with is_kernel_vaddr := isk } fd buffer size w = read k fd buffer size w ∧
    write { k with is_kernel_vaddr := isk } fd buffer size w = write k fd buffer size w ∧
    (buffer = 0 ∨ k.is_kernel_vaddr buffer = true →
      read k fd buffer size w = (Outcome.stopped Stop.exited, terminated w) ∧
      write k fd buffer size w = (Outcome.stopped Stop.exited, terminated w)) ∧
    (valid_address k buffer →
      (read k fd buffer size w).1 ≠ Outcome.stopped Stop.exited ∧
      (write k fd buffer size w).1 ≠ Outcome.stopped Stop.exited) := by
  have hc : check_address { k with is_kernel_vaddr := isk } buffer = check_address k buffer := by
    simp [check_address, h]
  refine ⟨?_, ?_, ?_, ?_⟩
  · simp only [read, hc]
    rfl
  · simp only [write, hc]
    rfl
  · intro hbad
    exact ⟨read_invalid k w fd buffer size hbad, write_invalid k w fd buffer size hbad⟩
  · intro hv
    constructor
    · rw [read_guarded k w fd buffer size hv, release_and_return_outcome]
      by_cases h0 : fd = 0
      · rw [if_pos h0]
        exact read_console_not_exited size w.input 0 buffer (acquired w)
      · rw [if_neg h0]
        by_cases hr : c_lt (c_lt 1 fd) k.FD_MAX ≠ 0 ∧ k.get_file w.fdt fd ≠ 0
        · rw [if_pos hr]
          simp [file_read]
        · rw [if_neg hr]
          simp
    · rw [write_guarded k w fd buffer size hv, release_and_return_outcome]
      by_cases h1 : fd = 1
      · rw [if_pos h1]
        simp
      · rw [if_neg h1]
        by_cases hr : c_lt (c_lt 1 fd) k.FD_MAX ≠ 0 ∧ k.get_file w.fdt fd ≠ 0
        · rw [if_pos hr]
          simp [file_write]
        · rw [if_neg hr]
          simp

/-- C3, amended, at the small kernel. At the user address 4096 the classification that
calls no address a kernel address changes nothing; at the kernel base the call ends the
process; from the last user address the call is not ended. -/
theorem buffer_start_validated_witness :
    read { toyKernel 128 with is_kernel_vaddr := fun _ => false } 0 4096 1
        (toyWorld [65, 66] [] [] []) =
      read (toyKernel 128) 0 4096 1 (toyWorld [65, 66] [] [] []) ∧
    write (toyKernel 128) 1 0x8004000000 2 (toyWorld [] [] [] []) =
      (Outcome.stopped Stop.exited, terminated (toyWorld [] [] [] [])) ∧
    (write (toyKernel 128) 1 0x8003ffffff 2 (toyWorld [] [] [] [])).1 ≠
      Outcome.stopped Stop.exited :=
  ⟨(buffer_start_validated (toyKernel 128) (toyWorld [65, 66] [] [] []) 0 4096 1
      (fun _ => false) (by decide)).1,
   ((buffer_start_validated (toyKernel 128) (toyWorld [] [] [] []) 1 0x8004000000 2
      (toyKernel 128).is_kernel_vaddr rfl).2.2.1 (Or.inr (by decide))).2,
   ((buffer_start_validated (toyKernel 128) (toyWorld [] [] [] []) 1 0x8003ffffff 2
      (toyKernel 128).is_kernel_vaddr rfl).2.2.2 ⟨by decide, by decide⟩).2⟩

end Validation

/-! ## Console transfers -/

section Console
variable {σ τ : Type}

/-- C1 fails on the code; this is what the code does. For a user buffer and `n + 1 < 2^31`,
with at least `n + 1` keys pending, `read (0, buf, n)` takes `n + 1` keys from the console
input (not `n`), stores them at `buf[0..n]` (so it writes `buf[n]`), and returns `n + 1`. -/
theorem read_console_takes_one_more (k : Kernel σ τ) (w : World σ τ) (buf n : Nat)
    (keys rest : List Nat) (hv : valid_address k buf) (hn : n + 1 < 2 ^ 31)
    (hin : w.input = keys ++ rest) (hlen : keys.length = n + 1) :
    read k 0 buf n w =
      (Outcome.returned ((n + 1 : Nat) : Int),
        { w with lock_held := false, input := rest,
                 trace := w.trace ++ [Event.lock_acquire] ++ console_events buf keys ++
                   [Event.lock_release] }) := by
  rw [read_guarded k w 0 buf n hv, if_pos rfl]
  have h := read_console_count n hn rest keys 0 buf (acquired w) (by omega)
  simp only [Nat.cast_zero] at h
  rw [hin, h]
  simp [release_and_return, acquired]

/-- C1 at the small kernel: `read (0, buf, 0)` with the keys 65, 66 pending takes the key
65 although none was asked for, stores it at `buf[0]`, and returns 1. -/
theorem read_console_takes_one_more_witness :
    read (toyKernel 128) 0 4096 0 (toyWorld [65, 66] [] [] []) =
      (Outcome.returned 1,
        { toyWorld [65, 66] [] [] [] with
            lock_held := false, input := [66],
            trace := [Event.lock_acquire, Event.input_getc 65, Event.store 4096 65,
              Event.lock_release] }) :=
  read_console_takes_one_more (toyKernel 128) (toyWorld [65, 66] [] [] []) 4096 0 [65] [66]
    ⟨by decide, by decide⟩ (by decide) rfl rfl

/-- The code of `read` for `fd == 0` on two inputs: with size 0 one key is taken and 1 is
returned; with size 2 three keys are taken, the third goes to `buf[2]`, and 3 is returned. -/
theorem read_console_eval :
    (read (toyKernel 128) 0 4096 0 (toyWorld [65, 66] [] [] [])).1 = Outcome.returned 1 ∧
    (read (toyKernel 128) 0 4096 0 (toyWorld [65, 66] [] [] [])).2.input = [66] ∧
    (read (toyKernel 128) 0 4096 2 (toyWorld [65, 66, 67] [] [] [])).1 = Outcome.returned 3 ∧
    (read (toyKernel 128) 0 4096 2 (toyWorld [65, 66, 67] [] [] [])).2.input = [] ∧
    (read (toyKernel 128) 0 4096 2 (toyWorld [65, 66, 67] [] [] [])).2.trace =
      [Event.lock_acquire, Event.input_getc 65, Event.store 4096 65,
       Event.input_getc 66, Event.store 4097 66, Event.input_getc 67, Event.store 4098 67,
       Event.lock_release] := by
  decide

/-- C8, as stated, fails at `n = 2^31`: `write (1, buf, 2^31)` returns `-2^31`, and the
dispatcher stores `2^64 - 2^31` in the return-value register. -/
theorem write_console_large_size :
    (write (toyKernel 128) 1 4096 (2 ^ 31) (toyWorld [] [] [] [])).1 =
      Outcome.returned (-2147483648) ∧
    (syscall_handler (toyKernel 128) ⟨10, 1, 4096, 2 ^ 31, []⟩ (toyWorld [] [] [] [])).1 =
      Outcome.returned ⟨18446744071562067968, 1, 4096, 2 ^ 31, []⟩ ∧
    (18446744071562067968 : Nat) ≠ 2 ^ 31 := by
  decide

/-- C8, amended. For a user buffer and every size `n < 2^31`, `write (1, buf, n)` makes one
call `putbuf (buf, n)`, under the guard, and returns `n`; and for every frame that decodes
to `WRITE (1, buf, n)` the dispatcher stores `n` in the return-value register. -/
theorem write_console_returns_size (k : Kernel σ τ) (w : World σ τ) (buf n : Nat)
    (hv : valid_address k buf) (hn : n < 2 ^ 31) :
    write k 1 buf n w =
      (Outcome.returned (n : Int),
        { w with lock_held := false,
                 trace := w.trace ++
                   [Event.lock_acquire, Event.putbuf buf n, Event.lock_release] }) ∧
    (∀ f : Frame, toInt32 f.rax = SYS_WRITE → toInt32 f.rdi = 1 → f.rsi = buf →
      f.rdx % 2 ^ 32 = n →
      syscall_handler k f w =
        (Outcome.returned { f with rax := n },
          { w with lock_held := false,
                   trace := w.trace ++
                     [Event.lock_acquire, Event.putbuf buf n, Event.lock_release] })) := by
  have h32 : n % 2 ^ 32 = n := Nat.mod_eq_of_lt (by omega)
  have hi : toInt32 n = (n : Int) := by
    unfold toInt32
    rw [h32, if_pos hn]
  have hw : write k 1 buf n w =
      (Outcome.returned (n : Int),
        { w with lock_held := false,
                 trace := w.trace ++
                   [Event.lock_acquire, Event.putbuf buf n, Event.lock_release] }) := by
    rw [write_guarded k w 1 buf n hv]
    simp [release_and_return, acquired, hi]
  refine ⟨hw, ?_⟩
  intro f hnr hfd hbuf hsize
  have hu : toUInt64 (n : Int) = n := by
    unfold toUInt64
    have : ((n : Int) % 2 ^ 64) = (n : Int) := by
      apply Int.emod_eq_of_lt <;> omega
    rw [this]
    simp
  have hd : syscall_handler k f w =
      (write k (toInt32 f.rdi) f.rsi (f.rdx % 2 ^ 32) >>= fun r =>
        (pure { f with rax := toUInt64 r } : M σ τ Frame)) w := by
    simp only [syscall_handler, hnr]
    rfl
  rw [hd, hfd, hbuf, hsize, bind_apply, hw]
  simp only [pure_apply, hu]

/-- C8, amended, at the small kernel: `WRITE (1, buf, 3)` leaves 3 in the register. -/
theorem write_console_returns_size_witness :
    syscall_handler (toyKernel 128) ⟨10, 1, 4096, 3, []⟩ (toyWorld [] [] [] []) =
      (Outcome.returned ⟨3, 1, 4096, 3, []⟩,
        { toyWorld [] [] [] [] with
            lock_held := false,
            trace := [Event.lock_acquire, Event.putbuf 4096 3, Event.lock_release] }) :=
  (write_console_returns_size (toyKernel 128) (toyWorld [] [] [] []) 4096 3
    ⟨by decide, by decide⟩ (by decide)).2 ⟨10, 1, 4096, 3, []⟩ (by decide) (by decide) rfl
    (by decide)

end Console

/-! ## The guard -/

section Guard
variable {σ τ : Type}

/-- C4 fails on the code. `open` of an existing file, entered with the guard free, calls
`filesys_open` and never calls `lock_acquire`: the guard is not held during the call. -/
theorem open_calls_filesystem_unguarded :
    (toyWorld [] [4096] [] []).lock_held = false ∧
    (sys_open (toyKernel 128) 4096 (toyWorld [] [4096] [] [])).1 = Outcome.returned 2 ∧
    (sys_open (toyKernel 128) 4096 (toyWorld [] [4096] [] [])).2.trace =
      [Event.filesys_open 4096, Event.set_fd 1000] ∧
    guard_respected (toyWorld [] [4096] [] []).lock_held
      (sys_open (toyKernel 128) 4096 (toyWorld [] [4096] [] [])).2.trace = false := by
  decide

/-- The part of C4 that the code meets: in `create`, `remove`, `read` and `write`, whatever
the arguments and the state of the guard on entry, every call into the shared filesystem
is made between `lock_acquire` and `lock_release`. -/
theorem siblings_call_filesystem_guarded (k : Kernel σ τ) (w : World σ τ) (p : Nat) :
    (∀ initial_size, calls_guarded w (create k p initial_size w)) ∧
    calls_guarded w (remove k p w) ∧
    (∀ fd size, calls_guarded w (read k fd p size w)) ∧
    (∀ fd size, calls_guarded w (write k fd p size w)) := by
  by_cases hp : p = 0 ∨ k.is_kernel_vaddr p = true
  · exact ⟨fun s => guarded_of_terminated w _ (create_invalid k w p s hp),
      guarded_of_terminated w _ (remove_invalid k w p hp),
      fun fd size => guarded_of_terminated w _ (read_invalid k w fd p size hp),
      fun fd size => guarded_of_terminated w _ (write_invalid k w fd p size hp)⟩
  · have hv := valid_address_of_not_invalid k p hp
    refine ⟨?_, ?_, ?_, ?_⟩
    · intro initial_size
      rw [create_guarded k w p initial_size hv]
      exact guarded_of_body w _ [Event.filesys_create p (toInt32 initial_size)] rfl rfl
    · rw [remove_guarded k w p hv]
      exact guarded_of_body w _ [Event.filesys_remove p] rfl rfl
    · intro fd size
      rw [read_guarded k w fd p size hv]
      by_cases h0 : fd = 0
      · obtain ⟨ev, h1, h2⟩ := read_console_effect size w.input 0 p (acquired w)
        rw [if_pos h0]
        exact guarded_of_body w _ ev h1 (guard_respected_console ev h2 true)
      · rw [if_neg h0]
        by_cases hc : c_lt (c_lt 1 fd) k.FD_MAX ≠ 0 ∧ k.get_file w.fdt fd ≠ 0
        · rw [if_pos hc]
          exact guarded_of_body w _ [Event.file_read (k.get_file w.fdt fd) p (toInt32 size)]
            rfl rfl
        · rw [if_neg hc]
          exact guarded_of_body w _ [] (by simp) rfl
    · intro fd size
      rw [write_guarded k w fd p size hv]
      by_cases h1 : fd = 1
      · rw [if_pos h1]
        exact guarded_of_body w _ [Event.putbuf p size] rfl rfl
      · rw [if_neg h1]
        by_cases hc : c_lt (c_lt 1 fd) k.FD_MAX ≠ 0 ∧ k.get_file w.fdt fd ≠ 0
        · rw [if_pos hc]
          exact guarded_of_body w _ [Event.file_write (k.get_file w.fdt fd) p (toInt32 size)]
            rfl rfl
        · rw [if_neg hc]
          exact guarded_of_body w _ [] (by simp) rfl

/-- C5. Let `create`, `remove`, `read` or `write` be entered with the guard free and with
pointer argument `p`.
When `p` passes the validator the handler does return, and it has called `lock_acquire`
exactly once and after it `lock_release` exactly once, the guard being free on return:
`create` and `remove` always, `write` for every descriptor (console, file, invalid
descriptor returning -1), `read` for every descriptor other than 0, and `read` on
descriptor 0 when the console holds the `size + 1` keys the loop takes (`size + 1 < 2^31`).
On every other path on which a handler returns the same holds (`guard_discipline`).
When `p` is null or a kernel address, the process is terminated without any call on the
guard, the guard being free: the validator runs before `lock_acquire`. -/
theorem guard_taken_once_and_released (k : Kernel σ τ) (w : World σ τ) (p : Nat)
    (hfree : w.lock_held = false) :
    (valid_address k p →
      (∀ initial_size, returns_balanced w (create k p initial_size w)) ∧
      returns_balanced w (remove k p w) ∧
      (∀ fd size, fd ≠ 0 → returns_balanced w (read k fd p size w)) ∧
      (∀ size keys rest, size + 1 < 2 ^ 31 → w.input = keys ++ rest →
        keys.length = size + 1 →
        (read k 0 p size w).1 = Outcome.returned ((size + 1 : Nat) : Int) ∧
        guard_balanced w (read k 0 p size w)) ∧
      (∀ fd size, returns_balanced w (write k fd p size w))) ∧
    (∀ initial_size, guard_discipline k p w (create k p initial_size w)) ∧
    guard_discipline k p w (remove k p w) ∧
    (∀ fd size, guard_discipline k p w (read k fd p size w)) ∧
    (∀ fd size, guard_discipline k p w (write k fd p size w)) := by
  have hcreate : ∀ initial_size, guard_discipline k p w (create k p initial_size w) := by
    intro initial_size
    refine discipline_of_shape k p w _ hfree (create_invalid k w p initial_size) ?_
    intro hv
    exact ⟨_, [Event.filesys_create p (toInt32 initial_size)],
      create_guarded k w p initial_size hv, rfl, rfl⟩
  have hremove : guard_discipline k p w (remove k p w) := by
    refine discipline_of_shape k p w _ hfree (remove_invalid k w p) ?_
    intro hv
    exact ⟨_, [Event.filesys_remove p], remove_guarded k w p hv, rfl, rfl⟩
  have hread : ∀ fd size, guard_discipline k p w (read k fd p size w) := by
    intro fd size
    refine discipline_of_shape k p w _ hfree (read_invalid k w fd p size) ?_
    intro hv
    by_cases h0 : fd = 0
    · obtain ⟨ev, h1, h2⟩ := read_console_effect size w.input 0 p (acquired w)
      refine ⟨_, ev, read_guarded k w fd p size hv, ?_, lock_events_console ev h2⟩
      rw [if_pos h0]
      exact h1
    · by_cases hc : c_lt (c_lt 1 fd) k.FD_MAX ≠ 0 ∧ k.get_file w.fdt fd ≠ 0
      · refine ⟨_, [Event.file_read (k.get_file w.fdt fd) p (toInt32 size)],
          read_guarded k w fd p size hv, ?_, rfl⟩
        rw [if_neg h0, if_pos hc]
        rfl
      · refine ⟨_, [], read_guarded k w fd p size hv, ?_, rfl⟩
        rw [if_neg h0, if_neg hc]
        simp
  have hwrite : ∀ fd size, guard_discipline k p w (write k fd p size w) := by
    intro fd size
    refine discipline_of_shape k p w _ hfree (write_invalid k w fd p size) ?_
    intro hv
    by_cases h1 : fd = 1
    · refine ⟨_, [Event.putbuf p size], write_guarded k w fd p size hv, ?_, rfl⟩
      rw [if_pos h1]
    · by_cases hc : c_lt (c_lt 1 fd) k.FD_MAX ≠ 0 ∧ k.get_file w.fdt fd ≠ 0
      · refine ⟨_, [Event.file_write (k.get_file w.fdt fd) p (toInt32 size)],
          write_guarded k w fd p size hv, ?_, rfl⟩
        rw [if_neg h1, if_pos hc]
        rfl
      · refine ⟨_, [], write_guarded k w fd p size hv, ?_, rfl⟩
        rw [if_neg h1, if_neg hc]
        simp
  refine ⟨?_, hcreate, hremove, hread, hwrite⟩
  intro hv
  refine ⟨?_, ?_, ?_, ?_, ?_⟩
  · intro initial_size
    have hr := create_returns k w p initial_size hv
    exact ⟨hr, (hcreate initial_size).1 hr⟩
  · have hr := remove_returns k w p hv
    exact ⟨hr, hremove.1 hr⟩
  · intro fd size h0
    have hr := read_file_returns k w fd p size hv h0
    exact ⟨hr, (hread fd size).1 hr⟩
  · intro size keys rest hn hin hlen
    have hr := read_console_returns k w p size keys rest hv hn hin hlen
    exact ⟨hr, (hread 0 size).1 ⟨_, hr⟩⟩
  · intro fd size
    have hr := write_returns k w fd p size hv
    exact ⟨hr, (hwrite fd size).1 hr⟩

/-- C5 at the small kernel, entered with the guard free. With the user pointer 4096:
`create` of a new file returns `true`, `remove` of a missing file returns `false`,
`write (1, ...)` returns 3, `write` on the closed handle 5 returns -1, `read` on the closed
handle 5 returns -1, `read (0, buf, 1)` with three keys pending returns 2; each with the
guard taken once and released once. With a null pointer `write` ends the process with the
guard untouched. -/
theorem guard_taken_once_and_released_witness :
    ((create (toyKernel 128) 4096 10 (toyWorld [65, 66, 67] [] [] [])).1 =
        Outcome.returned true ∧
      (create (toyKernel 128) 4096 10 (toyWorld [65, 66, 67] [] [] [])).2.trace =
        [Event.lock_acquire, Event.filesys_create 4096 10, Event.lock_release] ∧
      returns_balanced (toyWorld [65, 66, 67] [] [] [])
        (create (toyKernel 128) 4096 10 (toyWorld [65, 66, 67] [] [] []))) ∧
    ((remove (toyKernel 128) 4096 (toyWorld [65, 66, 67] [] [] [])).1 =
        Outcome.returned false ∧
      returns_balanced (toyWorld [65, 66, 67] [] [] [])
        (remove (toyKernel 128) 4096 (toyWorld [65, 66, 67] [] [] []))) ∧
    ((write (toyKernel 128) 1 4096 3 (toyWorld [65, 66, 67] [] [] [])).1 =
        Outcome.returned 3 ∧
      (write (toyKernel 128) 1 4096 3 (toyWorld [65, 66, 67] [] [] [])).2.trace =
        [Event.lock_acquire, Event.putbuf 4096 3, Event.lock_release] ∧
      returns_balanced (toyWorld [65, 66, 67] [] [] [])
        (write (toyKernel 128) 1 4096 3 (toyWorld [65, 66, 67] [] [] []))) ∧
    ((write (toyKernel 128) 5 4096 3 (toyWorld [65, 66, 67] [] [] [])).1 =
        Outcome.returned (-1) ∧
      returns_balanced (toyWorld [65, 66, 67] [] [] [])
        (write (toyKernel 128) 5 4096 3 (toyWorld [65, 66, 67] [] [] []))) ∧
    ((read (toyKernel 128) 5 4096 8 (toyWorld [65, 66, 67] [] [] [])).1 =
        Outcome.returned (-1) ∧
      returns_balanced (toyWorld [65, 66, 67] [] [] [])
        (read (toyKernel 128) 5 4096 8 (toyWorld [65, 66, 67] [] [] []))) ∧
    ((read (toyKernel 128) 0 4096 1 (toyWorld [65, 66, 67] [] [] [])).1 =
        Outcome.returned 2 ∧
      guard_balanced (toyWorld [65, 66, 67] [] [] [])
        (read (toyKernel 128) 0 4096 1 (toyWorld [65, 66, 67] [] [] []))) ∧
    ((write (toyKernel 128) 1 0 8 (toyWorld [65, 66, 67] [] [] [])).1 =
        Outcome.stopped Stop.exited ∧
      guard_untouched (toyWorld [65, 66, 67] [] [] [])
        (write (toyKernel 128) 1 0 8 (toyWorld [65, 66, 67] [] [] []))) :=
  ⟨⟨by decide, by decide,
     ((guard_taken_once_and_released (toyKernel 128) (toyWorld [65, 66, 67] [] [] []) 4096
       rfl).1 ⟨by decide, by decide⟩).1 10⟩,
   ⟨by decide,
     ((guard_taken_once_and_released (toyKernel 128) (toyWorld [65, 66, 67] [] [] []) 4096
       rfl).1 ⟨by decide, by decide⟩).2.1⟩,
   ⟨by decide, by decide,
     ((guard_taken_once_and_released (toyKernel 128) (toyWorld [65, 66, 67] [] [] []) 4096
       rfl).1 ⟨by decide, by decide⟩).2.2.2.2 1 3⟩,
   ⟨by decide,
     ((guard_taken_once_and_released (toyKernel 128) (toyWorld [65, 66, 67] [] [] []) 4096
       rfl).1 ⟨by decide, by decide⟩).2.2.2.2 5 3⟩,
   ⟨by decide,
     ((guard_taken_once_and_released (toyKernel 128) (toyWorld [65, 66, 67] [] [] []) 4096
       rfl).1 ⟨by decide, by decide⟩).2.2.1 5 8 (by decide)⟩,
   ((guard_taken_once_and_released (toyKernel 128) (toyWorld [65, 66, 67] [] [] []) 4096
       rfl).1 ⟨by decide, by decide⟩).2.2.2.1 1 [65, 66] [67] (by decide) rfl rfl,
   ((guard_taken_once_and_released (toyKernel 128) (toyWorld [65, 66, 67] [] [] []) 0
       rfl).2.2.2.2 1 8).2 (Or.inl rfl)⟩

end Guard

/-! ## Descriptor allocation in `open` -/

section Open
variable {σ τ : Type}

/-- C7. For a path that passes the validator, `open` does one of three things. If
`filesys_open` fails, it returns -1 after that single call: `set_fd` is not called and the
descriptor table is the same. If `filesys_open` succeeds and `set_fd` reports -1, it calls
`file_close` once, on the fresh reference, and returns -1. If both succeed, it returns the
descriptor from `set_fd` and does not call `file_close`. -/
theorem open_failure_holds_nothing (k : Kernel σ τ) (w : World σ τ) (file : Nat)
    (hv : valid_address k file) :
    ((k.filesys_open w.fs file).1 = 0 →
      sys_open k file w =
        (Outcome.returned (-1),
          { w with fs := (k.filesys_open w.fs file).2,
                   trace := w.trace ++ [Event.filesys_open file] })) ∧
    ((k.filesys_open w.fs file).1 ≠ 0 →
      (k.set_fd w.fdt (k.filesys_open w.fs file).1).1 = -1 →
      sys_open k file w =
        (Outcome.returned (-1),
          { w with fs := k.file_close (k.filesys_open w.fs file).2 (k.filesys_open w.fs file).1,
                   fdt := (k.set_fd w.fdt (k.filesys_open w.fs file).1).2,
                   trace := w.trace ++ [Event.filesys_open file,
                     Event.set_fd (k.filesys_open w.fs file).1,
                     Event.file_close (k.filesys_open w.fs file).1] })) ∧
    ((k.filesys_open w.fs file).1 ≠ 0 →
      (k.set_fd w.fdt (k.filesys_open w.fs file).1).1 ≠ -1 →
      sys_open k file w =
        (Outcome.returned (k.set_fd w.fdt (k.filesys_open w.fs file).1).1,
          { w with fs := (k.filesys_open w.fs file).2,
                   fdt := (k.set_fd w.fdt (k.filesys_open w.fs file).1).2,
                   trace := w.trace ++ [Event.filesys_open file,
                     Event.set_fd (k.filesys_open w.fs file).1] })) := by
  refine ⟨?_, ?_, ?_⟩
  · intro h0
    simp [sys_open, bind_apply, pure_apply, check_address_valid k file w hv, filesys_open, h0]
  · intro h0 hfull
    simp [sys_open, bind_apply, pure_apply, check_address_valid k file w hv, filesys_open, h0,
      set_fd, hfull, file_close]
  · intro h0 hfd
    simp [sys_open, bind_apply, pure_apply, check_address_valid k file w hv, filesys_open, h0,
      set_fd, hfd]

/-- C7 at the small kernel: a missing file; an existing file with the table of a kernel
with `FD_MAX = 4` full; an existing file with an empty table. -/
theorem open_failure_holds_nothing_witness :
    sys_open (toyKernel 128) 4096 (toyWorld [] [] [] []) =
      (Outcome.returned (-1),
        { toyWorld [] [] [] [] with trace := [Event.filesys_open 4096] }) ∧
    sys_open (toyKernel 4) 4096 (toyWorld [] [4096] [] [(2, 5), (3, 6)]) =
      (Outcome.returned (-1),
        { toyWorld [] [4096] [] [(2, 5), (3, 6)] with
            fs := { names := [4096], cursors := [], next := 1001 },
            trace := [Event.filesys_open 4096, Event.set_fd 1000, Event.file_close 1000] }) ∧
    sys_open (toyKernel 128) 4096 (toyWorld [] [4096] [] []) =
      (Outcome.returned 2,
        { toyWorld [] [4096] [] [] with
            fs := { names := [4096], cursors := [(1000, 0)], next := 1001 },
            fdt := [(2, 1000)],
            trace := [Event.filesys_open 4096, Event.set_fd 1000] }) :=
  ⟨(open_failure_holds_nothing (toyKernel 128) (toyWorld [] [] [] []) 4096
      ⟨by decide, by decide⟩).1 (by decide),
   (open_failure_holds_nothing (toyKernel 4) (toyWorld [] [4096] [] [(2, 5), (3, 6)]) 4096
      ⟨by decide, by decide⟩).2.1 (by decide) (by decide),
   (open_failure_holds_nothing (toyKernel 128) (toyWorld [] [4096] [] []) 4096
      ⟨by decide, by decide⟩).2.2 (by decide) (by decide)⟩

end Open

/-! ## The dispatcher -/

section Dispatcher
variable {σ τ : Type}

/-- C6 fails on the code. Handle 2 is live. The dispatcher serves `SEEK (2, 5)`, after
which `tell (2)` would return 5; but for the frame of `TELL (2)` the `switch` has no case:
`tell` is not invoked (nothing more is logged) and the return-value register still holds
the syscall number 12. -/
theorem tell_not_dispatched :
    (syscall_handler (toyKernel 128) ⟨11, 2, 5, 0, []⟩
        (toyWorld [] [4096] [(1000, 0)] [(2, 1000)])).2.fs.cursors = [(1000, 5)] ∧
    (tell (toyKernel 128) 0 2
        (syscall_handler (toyKernel 128) ⟨11, 2, 5, 0, []⟩
          (toyWorld [] [4096] [(1000, 0)] [(2, 1000)])).2).1 = Outcome.returned 5 ∧
    (syscall_handler (toyKernel 128) ⟨12, 2, 0, 0, []⟩
        (syscall_handler (toyKernel 128) ⟨11, 2, 5, 0, []⟩
          (toyWorld [] [4096] [(1000, 0)] [(2, 1000)])).2).1 =
      Outcome.returned ⟨12, 2, 0, 0, []⟩ ∧
    (syscall_handler (toyKernel 128) ⟨12, 2, 0, 0, []⟩
        (syscall_handler (toyKernel 128) ⟨11, 2, 5, 0, []⟩
          (toyWorld [] [4096] [(1000, 0)] [(2, 1000)])).2).2.trace =
      [Event.file_seek 1000 5] := by
  decide

/-- A frame whose syscall number is `SYS_TELL` takes the `default` branch of the `switch`,
in every kernel: the frame and the world stay as they are, `tell` is not called. -/
theorem tell_falls_to_default (k : Kernel σ τ) (w : World σ τ) (f : Frame)
    (h : toInt32 f.rax = SYS_TELL) : syscall_handler k f w = (Outcome.returned f, w) := by
  simp only [syscall_handler, h]
  rfl

/-- C9, as stated, fails. The number register holds `2^32 + 9`, which is no recognized
syscall number, with the keys 65, 66 pending: `int syscall_type = f->R.rax` keeps the low
32 bits, so `read (0, buf, 0)` runs, a key is taken from the console, and the return-value
register is overwritten with 1. With `2^32 + 1` in the register `exit (7)` runs and the
process is terminated. -/
theorem aliased_number_is_dispatched :
    (4294967305 : Int) ∉ recognized ∧
    (syscall_handler (toyKernel 128) ⟨4294967305, 0, 4096, 0, []⟩
        (toyWorld [65, 66] [] [] [])).1 =
      Outcome.returned ⟨1, 0, 4096, 0, []⟩ ∧
    (syscall_handler (toyKernel 128) ⟨4294967305, 0, 4096, 0, []⟩
        (toyWorld [65, 66] [] [] [])).2.trace =
      [Event.lock_acquire, Event.input_getc 65, Event.store 4096 65, Event.lock_release] ∧
    (4294967297 : Int) ∉ recognized ∧
    (syscall_handler (toyKernel 128) ⟨4294967297, 7, 0, 0, []⟩
        (toyWorld [65, 66] [] [] [])).1 = Outcome.stopped Stop.exited ∧
    (syscall_handler (toyKernel 128) ⟨4294967297, 7, 0, 0, []⟩
        (toyWorld [65, 66] [] [] [])).2.exit_status = 7 := by
  decide

/-- C9, amended. The syscall number is what the dispatcher decodes: the low 32 bits of the
number register, read as an `int`. When that number has no case in the `switch`, the
dispatcher returns the frame as it found it and the world is the same: no handler runs and
nothing is logged. This holds in particular when the register holds a value below `2^32`
that is not a recognized syscall. When the number is `SYS_SEEK` or `SYS_CLOSE`, the
dispatcher returns the frame as it found it, the return-value register included, in the
world that `seek` or `close` leaves. -/
theorem frame_untouched (k : Kernel σ τ) (w : World σ τ) (f : Frame) :
    (toInt32 f.rax ∉ dispatched → syscall_handler k f w = (Outcome.returned f, w)) ∧
    (f.rax < 2 ^ 32 → (f.rax : Int) ∉ recognized →
      syscall_handler k f w = (Outcome.returned f, w)) ∧
    (toInt32 f.rax = SYS_SEEK →
      syscall_handler k f w =
        (Outcome.returned f, (seek k (toInt32 f.rdi) (f.rsi % 2 ^ 32) w).2)) ∧
    (toInt32 f.rax = SYS_CLOSE →
      syscall_handler k f w = (Outcome.returned f, (close k (toInt32 f.rdi) w).2)) := by
  have hdefault : toInt32 f.rax ∉ dispatched →
      syscall_handler k f w = (Outcome.returned f, w) := by
    intro h
    simp only [dispatched, List.mem_cons, List.mem_singleton, not_or, List.not_mem_nil,
      or_false] at h
    obtain ⟨h0, h1, h2, h3, h4, h5, h6, h7, h8, h9, h10, h11, h13⟩ := h
    simp [syscall_handler, h0, h1, h2, h3, h4, h5, h6, h7, h8, h9, h10, h11, h13, pure_apply]
  refine ⟨hdefault, ?_, ?_, ?_⟩
  · intro hlt hrec
    apply hdefault
    have hmod : f.rax % 2 ^ 32 = f.rax := Nat.mod_eq_of_lt hlt
    simp only [recognized, dispatched, List.mem_cons, List.mem_singleton, not_or,
      List.not_mem_nil, or_false, SYS_HALT, SYS_EXIT, SYS_FORK, SYS_EXEC, SYS_WAIT,
      SYS_CREATE, SYS_REMOVE, SYS_OPEN, SYS_FILESIZE, SYS_READ, SYS_WRITE, SYS_SEEK,
      SYS_TELL, SYS_CLOSE] at hrec ⊢
    unfold toInt32
    rw [hmod]
    split <;> omega
  · intro h
    rw [← then_pure_of_returns _ f w (seek_returns k w (toInt32 f.rdi) (f.rsi % 2 ^ 32))]
    simp only [syscall_handler, h]
    rfl
  · intro h
    rw [← then_pure_of_returns _ f w (close_returns k w (toInt32 f.rdi))]
    simp only [syscall_handler, h]
    rfl

/-- C9, amended, at the small kernel: the numbers 99 (no such syscall, once through the
decoded number and once through the register value), 11 (`SEEK`) and 13 (`CLOSE`), handle 2
being live. -/
theorem frame_untouched_witness :
    syscall_handler (toyKernel 128) ⟨99, 2, 7, 9, [1, 2, 3]⟩
        (toyWorld [65] [4096] [(1000, 0)] [(2, 1000)]) =
      (Outcome.returned ⟨99, 2, 7, 9, [1, 2, 3]⟩,
        toyWorld [65] [4096] [(1000, 0)] [(2, 1000)]) ∧
    syscall_handler (toyKernel 128) ⟨99, 0, 4096, 0, []⟩ (toyWorld [65, 66] [] [] []) =
      (Outcome.returned ⟨99, 0, 4096, 0, []⟩, toyWorld [65, 66] [] [] []) ∧
    (syscall_handler (toyKernel 128) ⟨11, 2, 7, 9, [1, 2, 3]⟩
        (toyWorld [65] [4096] [(1000, 0)] [(2, 1000)])).1 =
      Outcome.returned ⟨11, 2, 7, 9, [1, 2, 3]⟩ ∧
    (syscall_handler (toyKernel 128) ⟨13, 2, 7, 9, [1, 2, 3]⟩
        (toyWorld [65] [4096] [(1000, 0)] [(2, 1000)])).1 =
      Outcome.returned ⟨13, 2, 7, 9, [1, 2, 3]⟩ :=
  ⟨(frame_untouched (toyKernel 128) (toyWorld [65] [4096] [(1000, 0)] [(2, 1000)])
      ⟨99, 2, 7, 9, [1, 2, 3]⟩).1 (by decide),
   (frame_untouched (toyKernel 128) (toyWorld [65, 66] [] [] [])
      ⟨99, 0, 4096, 0, []⟩).2.1 (by decide) (by decide),
   congrArg Prod.fst
     ((frame_untouched (toyKernel 128) (toyWorld [65] [4096] [(1000, 0)] [(2, 1000)])
       ⟨11, 2, 7, 9, [1, 2, 3]⟩).2.2.1 (by decide)),
   congrArg Prod.fst
     ((frame_untouched (toyKernel 128) (toyWorld [65] [4096] [(1000, 0)] [(2, 1000)])
       ⟨13, 2, 7, 9, [1, 2, 3]⟩).2.2.2 (by decide))⟩

end Dispatcher

/-! ## The descriptor range check -/

section Range
variable {σ τ : Type}

/-- The condition `1 < fd < FD_MAX` of the source compares the result of `1 < fd`, which is
0 or 1, with `FD_MAX`: it holds for every `fd` as soon as `FD_MAX` is above 1. -/
theorem chained_comparison_always_true (fd fd_max : Int) (h : 1 < fd_max) :
    c_lt (c_lt 1 fd) fd_max ≠ 0 := by
  unfold c_lt
  by_cases h1 : 1 < fd
  · simp [h1, h]
  · have h0 : (0 : Int) < fd_max := by omega
    simp [h1, h0]

/-- With `FD_MAX` above 1 the range condition plays no part: for a user buffer and a lookup
that yields a reference, `read` (for `fd` other than 0) goes to `file_read` and `write`
(for `fd` other than 1) goes to `file_write`, whatever `fd` is. -/
theorem file_calls_ignore_range (k : Kernel σ τ) (w : World σ τ) (fd : Int)
    (buffer size : Nat) (hv : valid_address k buffer) (hmax : 1 < k.FD_MAX)
    (hfile : k.get_file w.fdt fd ≠ 0) :
    (fd ≠ 0 → read k fd buffer size w =
      release_and_return
        (file_read k (k.get_file w.fdt fd) buffer (toInt32 size) (acquired w))) ∧
    (fd ≠ 1 → write k fd buffer size w =
      release_and_return
        (file_write k (k.get_file w.fdt fd) buffer (toInt32 size) (acquired w))) := by
  have hc : c_lt (c_lt 1 fd) k.FD_MAX ≠ 0 ∧ k.get_file w.fdt fd ≠ 0 :=
    ⟨chained_comparison_always_true fd k.FD_MAX hmax, hfile⟩
  constructor
  · intro h0
    rw [read_guarded k w fd buffer size hv, if_neg h0, if_pos hc]
  · intro h1
    rw [write_guarded k w fd buffer size hv, if_neg h1, if_pos hc]

/-- C10 fails on the code. With `FD_MAX = 128` the condition `1 < fd < FD_MAX` of the
source holds at `fd = 0` and at `fd = 128`, which lie outside the range. When the table
lookup yields a reference there, `write (0, ...)` calls `file_write` and returns its result,
and `read (128, ...)` calls `file_read` and returns its result, instead of -1. -/
theorem chained_comparison_accepts_out_of_range :
    (c_lt (c_lt 1 0) 128 ≠ 0 ∧ ¬ ((1 : Int) < 0 ∧ (0 : Int) < 128)) ∧
    (c_lt (c_lt 1 128) 128 ≠ 0 ∧ ¬ ((1 : Int) < 128 ∧ (128 : Int) < 128)) ∧
    (write (toyKernel 128) 0 4096 5 (toyWorld [] [] [(77, 0)] [(0, 77)])).1 =
      Outcome.returned 5 ∧
    (write (toyKernel 128) 0 4096 5 (toyWorld [] [] [(77, 0)] [(0, 77)])).2.trace =
      [Event.lock_acquire, Event.file_write 77 4096 5, Event.lock_release] ∧
    (read (toyKernel 128) 128 4096 5 (toyWorld [] [] [(77, 0)] [(128, 77)])).1 =
      Outcome.returned 0 ∧
    (read (toyKernel 128) 128 4096 5 (toyWorld [] [] [(77, 0)] [(128, 77)])).2.trace =
      [Event.lock_acquire, Event.file_read 77 4096 5, Event.lock_release] := by
  decide

end Range

end Syscall
